import Mathlib

/-!
Shallow embedding of the `httprouter` package (github.com/n-r-w/httprouter).

The repository contains two variants of the same package: `router.go`
(older: uint64 user ids, fixed cookie name) and `unnamed/part_000` (newer:
string user ids, caller-supplied cookie names).  Unless stated otherwise the
definitions below embed the newer variant (`unnamed/part_000`); where the two
differ in a way a claim depends on, a second definition carries the `Old`
suffix.

External collaborators (gorilla/mux, gorilla/sessions, encoding/json,
tools.CompressData, the lg logger, the nerr error type) are modeled at their
interface: the compressor is a function parameter, the session store's
Get/Save outcomes are parameters, JSON marshaling is a concrete serializer
over a small JSON value type (Go's `json.Marshal` writes map keys in sorted
order and produces no whitespace, which the model mirrors).

Byte slices are modeled as `List Nat`; the bytes of a Go string are modeled
as its character codes (`String.data.map Char.toNat`), which is injective on
the inputs appearing here and never inspected byte-by-byte by the code.
-/

deriving instance DecidableEq for Except

/-- Byte slices (`[]byte`). -/
abbrev Bytes := List Nat

/-- `[]byte(s)` for a Go string, modeled as character codes. -/
def strBytes (s : String) : Bytes := s.data.map Char.toNat

/-- `http.Header`: an association list of header name/value pairs. -/
abbrev Headers := List (String × String)

/-- `http.Header.Set`: replaces any existing values for the key. -/
def headerSet (h : Headers) (key value : String) : Headers :=
  h.filter (fun p => !(p.1 == key)) ++ [(key, value)]

/-- `http.Header.Get`: first value for the key, `""` when absent. -/
def headerGet (h : Headers) (key : String) : String :=
  match h with
  | [] => ""
  | p :: rest => if p.1 == key then p.2 else headerGet rest key

/-- Does the character list start with the given pattern? -/
def listStartsWith : List Char → List Char → Bool
  | _, [] => true
  | [], _ :: _ => false
  | a :: as, b :: bs => a == b && listStartsWith as bs

/-- Does the character list contain the pattern as a contiguous run? -/
def listHasSub : List Char → List Char → Bool
  | [], pat => pat.isEmpty
  | s@(_ :: rest), pat => listStartsWith s pat || listHasSub rest pat

/-- `strings.Contains`. -/
def strContains (s pat : String) : Bool :=
  listHasSub s.data pat.data

/-- `strings.Split(s, ",")`: splits on every comma, keeping empty parts
(`""` splits to `[""]`, as in Go). -/
def splitCommaAux : List Char → List Char → List String
  | [], acc => [String.mk acc.reverse]
  | c :: rest, acc =>
    if c == ',' then String.mk acc.reverse :: splitCommaAux rest []
    else splitCommaAux rest (c :: acc)

/-- `strings.Split(s, ",")`. -/
def splitComma (s : String) : List String :=
  splitCommaAux s.data []

/-- Go errors as seen by this package: either a plain `error`, or a
`*nerr.Error` exposing a top code, a trace and a top operation
(`TopCode`/`Trace`/`TopOp` are what `RespondError` reads). -/
inductive GoErr where
  | plain (msg : String)
  | nerrE (topCode : Int) (trace : List String) (topOp : String)
deriving DecidableEq, Repr

/-- `err.Error()`; the nerr library reports the top operation. -/
def GoErr.message : GoErr → String
  | .plain m => m
  | .nerrE _ _ op => op

/-- `nerr.New(msg)` for a string message (external library, modeled as a
`*nerr.Error` with no code, empty trace and the message as top op). -/
def nerrNewMsg (msg : String) : GoErr := .nerrE 0 [] msg

/-- `nerr.New(err)` wrapping an existing error. -/
def nerrWrap (e : GoErr) : GoErr := .nerrE 0 [] e.message

/-- JSON values produced by this package (string arrays appear only as nerr
traces, so arrays are specialized to arrays of strings). -/
inductive Json where
  | str (s : String)
  | num (n : Int)
  | sarr (xs : List String)
  | obj (fields : List (String × Json))

/-- Escape a character for a JSON string literal (quote and backslash; the
messages handled by this package contain no control characters). -/
def jsonEscChar (c : Char) : String :=
  if c = '\\' then "\\\\" else if c = '"' then "\\\"" else String.singleton c

/-- Escape a string for a JSON string literal. -/
def jsonEscape (s : String) : String :=
  s.data.foldl (fun acc c => acc ++ jsonEscChar c) ""

/-- The standard base64 alphabet (Go marshals `[]byte` as base64). -/
def b64Alphabet : List Char :=
  "ABCDEFGHIJKLMNOPQRSTUVWXYZabcdefghijklmnopqrstuvwxyz0123456789+/".data

/-- Index into the base64 alphabet. -/
def b64Char (n : Nat) : Char := b64Alphabet.getD n 'A'

/-- Standard base64 with padding, as `encoding/json` uses for `[]byte`. -/
def base64Std : Bytes → String
  | [] => ""
  | [a] => String.mk [b64Char (a / 4), b64Char (a % 4 * 16)] ++ "=="
  | [a, b] =>
    String.mk [b64Char (a / 4), b64Char (a % 4 * 16 + b / 16 % 16),
      b64Char (b % 16 * 4)] ++ "="
  | a :: b :: c :: rest =>
    String.mk [b64Char (a / 4), b64Char (a % 4 * 16 + b / 16 % 16),
      b64Char (b % 16 * 4 + c / 64 % 4), b64Char (c % 64)] ++ base64Std rest

mutual

/-- Serialize a JSON value the way `encoding/json` does (no whitespace;
object fields are supplied already in Go's sorted-key marshal order). -/
def encodeJson : Json → String
  | .str s => "\"" ++ jsonEscape s ++ "\""
  | .num n => toString n
  | .sarr xs => "[" ++ encodeStrs xs ++ "]"
  | .obj fs => "\x7b" ++ encodeFields fs ++ "\x7d"

/-- Comma-separated JSON string literals. -/
def encodeStrs : List String → String
  | [] => ""
  | [x] => "\"" ++ jsonEscape x ++ "\""
  | x :: rest => "\"" ++ jsonEscape x ++ "\"" ++ "," ++ encodeStrs rest

/-- Comma-separated `"key":value` pairs. -/
def encodeFields : List (String × Json) → String
  | [] => ""
  | [(k, v)] => "\"" ++ jsonEscape k ++ "\":" ++ encodeJson v
  | (k, v) :: rest =>
    "\"" ++ jsonEscape k ++ "\":" ++ encodeJson v ++ "," ++ encodeFields rest

end

/-- The `data interface{}` argument of the responder entry points: Go `nil`,
a string, a byte slice, a JSON-marshalable value, or a value on which
`json.Marshal` fails with the given message (e.g. a channel or function). -/
inductive GoData where
  | gonil
  | gostr (s : String)
  | gobytes (b : Bytes)
  | gojson (j : Json)
  | gobad (msg : String)

/-- `json.Marshal` on the modeled payloads. -/
def jsonMarshal : GoData → Except GoErr Bytes
  | .gonil => .ok (strBytes "null")
  | .gostr s => .ok (strBytes (encodeJson (.str s)))
  | .gobytes b => .ok (strBytes (encodeJson (.str (base64Std b))))
  | .gojson j => .ok (strBytes (encodeJson j))
  | .gobad m => .error (.plain m)

/-- `responseWriterEx` (router.go lines 35-41): the capture wrapper holding
the underlying writer's headers, the captured status code, the captured
error, and the body written so far. -/
structure ResponseWriterEx where
  headers : Headers
  code : Int
  err : Option GoErr
  body : Bytes
deriving DecidableEq, Repr

/-- `responseWriterEx.WriteHeader` (lines 41-47).  `none` models the panic
on a non-positive status code; otherwise the status is recorded and
forwarded to the underlying writer. -/
def writeHeader (w : ResponseWriterEx) (statusCode : Int) : Option ResponseWriterEx :=
  if statusCode ≤ 0 then none
  else some { w with code := statusCode }

/-- `responseWriterEx.WriteHeaderAndData` (lines 49-60).  `none` models the
panic on a non-positive status code; `data = none` models a nil slice
(header only, returns 0); the underlying network write is modeled as always
succeeding, so the returned value is the byte count. -/
def writeHeaderAndData (w : ResponseWriterEx) (statusCode : Int) (data : Option Bytes) :
    Option (ResponseWriterEx × Nat) :=
  if statusCode ≤ 0 then none
  else
    let w := { w with code := statusCode }
    match data with
    | none => some (w, 0)
    | some d => some ({ w with body := w.body ++ d }, d.length)

/-- `CompressionType` (interface.go lines 5-11). -/
inductive CompressionType where
  | no
  | gzip
  | deflate
deriving DecidableEq, Repr

/-- An inbound `*http.Request`, restricted to the fields this package
reads: the header map and `RemoteAddr`. -/
structure Request where
  headers : Headers
  remoteAddr : String
deriving DecidableEq, Repr

/-- `RespondData` (part_000 lines 119-163).  The `w.(*responseWriterEx)`
assertion cannot fail in the model (the writer type is exact), so only the
non-positive-status panic inside `WriteHeaderAndData` yields `none`.  The
underlying write never fails in the model, so the trailing
`logger.Err` branch is unreachable and omitted. -/
def respondData (rw : ResponseWriterEx) (code : Int) (contentType : String)
    (data : GoData) : Option ResponseWriterEx :=
  match data with
  | .gonil => (writeHeaderAndData rw code none).map Prod.fst
  | d =>
    if strContains contentType "application/json" then
      let rw := if 0 < contentType.length then
          { rw with headers := headerSet rw.headers "Content-Type" contentType }
        else rw
      match jsonMarshal d with
      | .error err1 =>
        (writeHeaderAndData rw 500
          (some (strBytes ("\x7b\"error\": \"" ++ (nerrWrap err1).message ++ "\"\x7d")))).map
          Prod.fst
      | .ok jData => (writeHeaderAndData rw code (some jData)).map Prod.fst
    else
      match d with
      | .gostr s =>
        let rw := if 0 < contentType.length then
            { rw with headers := headerSet rw.headers "Content-Type" contentType }
          else rw
        (writeHeaderAndData rw code (some (strBytes s))).map Prod.fst
      | .gobytes b =>
        let rw := if 0 < contentType.length then
            { rw with headers := headerSet rw.headers "Content-Type" contentType }
          else rw
        (writeHeaderAndData rw code (some b)).map Prod.fst
      | _ =>
        let rw := { rw with
          headers := headerSet rw.headers "Content-Type" "text/html; charset=utf-8" }
        (writeHeaderAndData rw 500 (some (strBytes "unknown data type"))).map Prod.fst

/-- The `error` map built by `RespondError` (part_000 lines 103-114): a
structured `code`/`trace`/`detail` object for a `*nerr.Error` (code omitted
when 0, trace omitted when empty), `detail` alone for a plain error.
Fields are listed in Go's sorted-key marshal order: code, detail, trace. -/
def errorMapOf : GoErr → Json
  | .nerrE tc tr op =>
    .obj ((if tc ≠ 0 then [("code", Json.num tc)] else [])
      ++ [("detail", Json.str op)]
      ++ (if tr.length > 0 then [("trace", Json.sarr tr)] else []))
  | .plain m => .obj [("detail", Json.str m)]

/-- `RespondError` (part_000 lines 94-117): records the error on the
capture wrapper and writes the error map as JSON via `RespondData`. -/
def respondError (rw : ResponseWriterEx) (code : Int) (err : GoErr) :
    Option ResponseWriterEx :=
  let rw := { rw with err := some err }
  respondData rw code "application/json; charset=utf-8"
    (.gojson (.obj [("error", errorMapOf err)]))

/-- The older variant's `RespondError` (router.go lines 97-105): always a
flat `map[string]string` with the plain message. -/
def respondErrorOld (rw : ResponseWriterEx) (code : Int) (err : GoErr) :
    Option ResponseWriterEx :=
  let rw := { rw with err := some err }
  respondData rw code "application/json; charset=utf-8"
    (.gojson (.obj [("error", .str err.message)]))

/-- The compression-negotiation snippet of `RespondCompressed` (part_000
lines 179-186): the accepted-encoding list is matched exactly against the
tokens `gzip`/`deflate` and against the caller-requested kind. -/
def chooseCompression (accepted : List String) (compType : CompressionType) :
    CompressionType :=
  if accepted.contains "gzip" && compType == .gzip then .gzip
  else if accepted.contains "deflate" && compType == .deflate then .deflate
  else .no

/-- The `sourceData` buffer of `RespondCompressed` (part_000 lines
193-207).  The Go type switch has an EMPTY `case string:` body (no
fallthrough in Go), so for a string payload `sourceData` keeps its zero
value `nil`, modeled as the empty byte slice. -/
def sourceDataOf : GoData → Except GoErr Bytes
  | .gostr _ => .ok []
  | .gobytes b => .ok b
  | d => jsonMarshal d

/-- `data == nil`? -/
def GoData.isNil : GoData → Bool
  | .gonil => true
  | _ => false

/-- The non-nil path of `RespondCompressed` (part_000 lines 173-224),
i.e. everything after the early `data == nil` return.  The external
`tools.CompressData` is the `compress` parameter; its boolean argument is
true for deflate.  Note the order of operations from the source: the
JSON-marshal failure exit happens before the `Content-Encoding` header is
set, the compression failure exit after. -/
def respondCompressedData (compress : Bool → Bytes → Except GoErr Bytes)
    (rw : ResponseWriterEx) (r : Request) (code : Int) (compType : CompressionType)
    (contentType : String) (d : GoData) : Option ResponseWriterEx :=
  let accepted := splitComma (headerGet r.headers "Accept-Encoding")
  let compressionType := chooseCompression accepted compType
  if compressionType = CompressionType.no then
    respondData rw code contentType d
  else
    match sourceDataOf d with
    | .error errJSON => respondError rw 500 (nerrWrap errJSON)
    | .ok sourceData =>
      let encName := if compressionType = CompressionType.gzip then "gzip" else "deflate"
      let rw := { rw with headers := headerSet rw.headers "Content-Encoding" encName }
      match compress (compressionType == .deflate) sourceData with
      | .error err => respondError rw 500 err
      | .ok compressedData =>
        let rw := { rw with headers := headerSet rw.headers "Content-Type" contentType }
        (writeHeaderAndData rw code (some compressedData)).map Prod.fst

/-- `RespondCompressed` (part_000 lines 165-224): a nil payload falls back
to the plain path immediately (lines 167-171), otherwise the non-nil path
above runs. -/
def respondCompressed (compress : Bool → Bytes → Except GoErr Bytes)
    (rw : ResponseWriterEx) (r : Request) (code : Int) (compType : CompressionType)
    (contentType : String) (data : GoData) : Option ResponseWriterEx :=
  match data with
  | .gonil => respondData rw code contentType .gonil
  | d => respondCompressedData compress rw r code compType contentType d

/-- Severity tiers of the lg logger used by `logRequest`. -/
inductive LgLevel where
  | error
  | warn
  | info
deriving DecidableEq, Repr

/-- One emitted access-log line (the arguments of the
`logger.Level(level, "addr: %s, completed with %d %s in %v, %s", ...)`
call in `logRequest`). -/
structure LogEntry where
  level : LgLevel
  remoteAddr : String
  code : Int
  statusText : String
  duration : Nat
  errorText : String
deriving DecidableEq, Repr

/-- `http.StatusText` restricted to the codes exercised here (external
stdlib table; unknown codes give `""` as in Go). -/
def statusText (code : Int) : String :=
  if code = 200 then "OK"
  else if code = 400 then "Bad Request"
  else if code = 404 then "Not Found"
  else if code = 500 then "Internal Server Error"
  else ""

/-- `strings.ReplaceAll(errorText, quote, "")`. -/
def stripQuotes (s : String) : String :=
  String.mk (s.data.filter (fun c => !(c == '"')))

/-- `logRequest` (part_000 lines 327-368): wraps the underlying writer in a
fresh capture wrapper with code 200, runs the next handler, classifies the
captured status (≥500 error, ≥400 warning, else info) and emits exactly the
error- and warning-tier lines.  `w` is the underlying writer's header map,
`elapsed` the measured `time.Since(start)` value (wall-clock time is a
parameter of the model). -/
def logRequest (next : ResponseWriterEx → Request → ResponseWriterEx)
    (w : Headers) (r : Request) (elapsed : Nat) :
    ResponseWriterEx × List LogEntry :=
  let rw : ResponseWriterEx := { headers := w, code := 200, err := none, body := [] }
  let rw := next rw r
  let level : LgLevel :=
    if rw.code ≥ 500 then .error
    else if rw.code ≥ 400 then .warn
    else .info
  let errorText :=
    match rw.err with
    | some e => stripQuotes e.message
    | none => "-"
  let entries : List LogEntry :=
    if level == .error || level == .warn then
      [{ level := level, remoteAddr := r.remoteAddr, code := rw.code,
         statusText := statusText rw.code, duration := elapsed,
         errorText := errorText }]
    else []
  (rw, entries)

/-- Values stored in a gorilla session's `Values` map: the user identifier
is a string in the newer variant and a uint64 in the older one. -/
inductive GoVal where
  | vstr (s : String)
  | vuint (n : Nat)
deriving DecidableEq, Repr

/-- The session options this package reads (`sessions.Options.MaxAge`). -/
structure SessionOptions where
  maxAge : Int
deriving DecidableEq, Repr

/-- A gorilla `*sessions.Session`, restricted to the fields this package
touches. -/
structure Session where
  values : List (String × GoVal)
  options : SessionOptions
deriving DecidableEq, Repr

/-- Lookup in a session's `Values` map. -/
def lookupVal : List (String × GoVal) → String → Option GoVal
  | [], _ => none
  | p :: rest, k => if p.1 == k then some p.2 else lookupVal rest k

/-- `CheckSession` (part_000 lines 279-293).  The store's `Get` outcome is
the `getResult` parameter.  The outer `none` models the panic of the
unchecked `ID.(string)` type assertion; otherwise the result is the Go
`(userID, err)` pair. -/
def checkSession (getResult : Except GoErr Session) (cookieKey : String) :
    Option (Except GoErr String) :=
  match getResult with
  | .error e => some (.error (nerrWrap e))
  | .ok session =>
    match lookupVal session.values cookieKey with
    | none => some (.error (nerrNewMsg "unauthorized"))
    | some v =>
      if session.options.maxAge < 0 then some (.error (nerrNewMsg "unauthorized"))
      else
        match v with
        | .vstr s => some (.ok s)
        | _ => none

/-- The older variant's `CheckSession` (router.go lines 263-277): fixed
session key `user_id`, uint64 user ids, the store's `Get` error returned
unwrapped.  The outer `none` again models the panic of the unchecked
`ID.(uint64)` type assertion. -/
def checkSessionOld (getResult : Except GoErr Session) :
    Option (Except GoErr Nat) :=
  match getResult with
  | .error e => some (.error e)
  | .ok session =>
    match lookupVal session.values "user_id" with
    | none => some (.error (nerrNewMsg "unauthorized"))
    | some v =>
      if session.options.maxAge < 0 then some (.error (nerrNewMsg "unauthorized"))
      else
        match v with
        | .vuint n => some (.ok n)
        | _ => none

/-- `delete(sessionMain.Values, cookieKey)` applied to a session. -/
def sessionErase (s : Session) (cookieKey : String) : Session :=
  { s with values := s.values.filter (fun p => !(p.1 == cookieKey)) }

/-- The observable outcome of `CloseSession`: the session passed to
`Save` (if `Save` was reached) and the log lines emitted.  The function
itself returns nothing in Go. -/
structure CloseResult where
  saved : Option Session
  logs : List String
deriving DecidableEq, Repr

/-- `CloseSession` (part_000 lines 295-305).  `getResult` is the store's
`Get` outcome `(session, err)`; the error component is discarded by the
source (`sessionMain, _ := ...Get(...)`).  `saveErr` is the store's `Save`
outcome.  A save failure is logged, never returned. -/
def closeSession (getResult : Option Session × Option GoErr)
    (saveErr : Option GoErr) (cookieKey : String) : CloseResult :=
  match getResult.1 with
  | none => { saved := none, logs := [] }
  | some sessionMain =>
    let mutated := sessionErase sessionMain cookieKey
    { saved := some mutated
      logs := if saveErr.isSome then ["session save error"] else [] }

/-- The registration-time state of `RouterData`: the root mux middleware
ids, the `subrouters` cache (path → subrouter id), and each subrouter's
middleware ids and registered route patterns.  Middleware functions are
identified by `Nat` tags; the three global middlewares installed by `New`
(request id, logging, CORS) are not part of any sub-path group and are
omitted from the initial state. -/
structure RouterState where
  muxMW : List Nat
  nextId : Nat
  subrouters : List (String × Nat)
  subMW : List (Nat × List Nat)
  subRoutes : List (Nat × List String)
  rootRoutes : List String
deriving DecidableEq, Repr

/-- The state of a fresh `New(...)` router (empty subrouter cache). -/
def newRouterState : RouterState :=
  { muxMW := [], nextId := 0, subrouters := [], subMW := [], subRoutes := [],
    rootRoutes := [] }

/-- Generic association-list lookup by string key. -/
def lookupStr {α : Type} : List (String × α) → String → Option α
  | [], _ => none
  | p :: rest, k => if p.1 == k then some p.2 else lookupStr rest k

/-- Generic association-list lookup by nat key. -/
def lookupNat {α : Type} : List (Nat × α) → Nat → Option α
  | [], _ => none
  | p :: rest, k => if p.1 == k then some p.2 else lookupNat rest k

/-- Update the entry for a nat key in place. -/
def updateNat {α : Type} (l : List (Nat × α)) (k : Nat) (f : α → α) :
    List (Nat × α) :=
  l.map (fun p => if p.1 == k then (p.1, f p.2) else p)

/-- `getSubrouter` (part_000 lines 307-315): lookup-or-create in the
`subrouters` map; a newly created subrouter (via
`mux.PathPrefix(path).Subrouter()`) starts with no middleware and no
routes and is cached under the path. -/
def getSubrouter (st : RouterState) (path : String) : RouterState × Nat :=
  match lookupStr st.subrouters path with
  | some id => (st, id)
  | none =>
    let id := st.nextId
    ({ st with
        nextId := id + 1
        subrouters := (path, id) :: st.subrouters
        subMW := (id, []) :: st.subMW
        subRoutes := (id, []) :: st.subRoutes }, id)

/-- The adapter loop of `AddMiddleware` (part_000 lines 240-243):
`for i, f := range mwf { funcs[i] = func(h http.Handler) http.Handler
{ return f(h) } }`.  go.mod declares `go 1.18`, so the loop variable `f` is
a single variable shared by every iteration (pre-Go-1.22 semantics); each
stored closure reads `f` only when the middleware chain is later invoked,
i.e. after the loop has finished, when `f` holds the LAST element of
`mwf`.  Every entry of `funcs` therefore behaves as the last middleware. -/
def addMiddlewareFuncs (mwf : List Nat) : List Nat :=
  match mwf.getLast? with
  | none => []
  | some f => List.replicate mwf.length f

/-- `AddMiddleware` (part_000 lines 238-250): `mux.Router.Use` appends the
adapted chain to the target router's middleware list (the root mux for an
empty subroute, else the cached/created subrouter). -/
def addMiddleware (st : RouterState) (subroute : String) (mwf : List Nat) :
    RouterState :=
  let funcs := addMiddlewareFuncs mwf
  if subroute.length = 0 then { st with muxMW := st.muxMW ++ funcs }
  else
    let res := getSubrouter st subroute
    { res.1 with subMW := updateNat res.1.subMW res.2 (fun l => l ++ funcs) }

/-- `AddRoute` (part_000 lines 226-236): registers the route pattern on the
root mux or on the cached/created subrouter. -/
def addRoute (st : RouterState) (subroute route : String) : RouterState :=
  if subroute.length = 0 then { st with rootRoutes := st.rootRoutes ++ [route] }
  else
    let res := getSubrouter st subroute
    { res.1 with subRoutes := updateNat res.1.subRoutes res.2 (fun l => l ++ [route]) }

/-- The middleware chain gorilla/mux applies, in execution order, to every
route of the sub-path group registered under `path`: the root router's
middlewares (it matches first and wraps the subrouter) followed by the
group's own, each list in registration order (mux wraps from the last
registered inward, so the first registered runs first). -/
def effectiveChain (st : RouterState) (path : String) : List Nat :=
  match lookupStr st.subrouters path with
  | some id => st.muxMW ++ (lookupNat st.subMW id).getD []
  | none => st.muxMW

/-! ## Helper lemmas -/

theorem headerGet_headerSet_self (h : Headers) (k v : String) :
    headerGet (headerSet h k v) k = v := by
  induction h with
  | nil => simp [headerSet, headerGet]
  | cons p rest ih =>
    unfold headerSet at ih ⊢
    by_cases hp : p.1 = k <;> simp [List.filter_cons, hp, headerGet, ih]

theorem headerGet_headerSet_ne (h : Headers) (k v k' : String) (hne : k' ≠ k) :
    headerGet (headerSet h k v) k' = headerGet h k' := by
  have hkk : ¬ k = k' := fun hk => hne hk.symm
  induction h with
  | nil => simp [headerSet, headerGet, hkk]
  | cons p rest ih =>
    unfold headerSet at ih ⊢
    by_cases hq : p.1 = k'
    · have hp : ¬ p.1 = k := fun hpk => hne (hq.symm.trans hpk)
      simp [List.filter_cons, hp, headerGet, hq, hne, ih]
    · by_cases hp : p.1 = k <;>
        simp [List.filter_cons, hp, headerGet, hq, hkk, hne, ih]

theorem lookupVal_erase (l : List (String × GoVal)) (k : String) :
    lookupVal (l.filter (fun p => !(p.1 == k))) k = none := by
  induction l with
  | nil => rfl
  | cons p rest ih =>
    by_cases hp : p.1 = k <;> simp [List.filter_cons, hp, lookupVal, ih]

/-- The result of `WriteHeaderAndData` followed by `Prod.fst`, as one
equation for a positive status code. -/
theorem whd_map_eq (rw : ResponseWriterEx) (c : Int) (d : Option Bytes) (hc : ¬ c ≤ 0) :
    (writeHeaderAndData rw c d).map Prod.fst =
      some { rw with code := c, body := rw.body ++ d.getD [] } := by
  unfold writeHeaderAndData
  cases d <;> simp [hc]

/-- `WriteHeaderAndData` panics on a non-positive status code. -/
theorem whd_map_none (rw : ResponseWriterEx) (c : Int) (d : Option Bytes) (hc : c ≤ 0) :
    (writeHeaderAndData rw c d).map Prod.fst = none := by
  unfold writeHeaderAndData
  simp [hc]

/-- A successful `WriteHeaderAndData` leaves the header map unchanged. -/
theorem whd_map_headers (rw : ResponseWriterEx) (c : Int) (d : Option Bytes)
    (rw' : ResponseWriterEx)
    (h : (writeHeaderAndData rw c d).map Prod.fst = some rw') :
    rw'.headers = rw.headers := by
  unfold writeHeaderAndData at h
  split at h
  · simp at h
  · cases d <;> simp at h <;> rw [← h]

/-- `RespondData` never changes the `Content-Encoding` header (it only ever
sets `Content-Type`). -/
theorem respondData_ce (rw : ResponseWriterEx) (code : Int) (ct : String)
    (d : GoData) :
    ∀ rw', respondData rw code ct d = some rw' →
      headerGet rw'.headers "Content-Encoding" = headerGet rw.headers "Content-Encoding" := by
  have hCT : ∀ (hh : Headers) (v : String),
      headerGet (headerSet hh "Content-Type" v) "Content-Encoding" = headerGet hh "Content-Encoding" :=
    fun hh v => headerGet_headerSet_ne hh "Content-Type" v "Content-Encoding" (by decide)
  intro rw' h
  cases d with
  | gonil =>
    simp only [respondData] at h
    rw [whd_map_headers _ _ _ _ h]
  | gostr s =>
    simp only [respondData, jsonMarshal] at h
    split at h <;> split at h <;>
      rw [whd_map_headers _ _ _ _ h] <;> simp [hCT]
  | gobytes b =>
    simp only [respondData, jsonMarshal] at h
    split at h <;> split at h <;>
      rw [whd_map_headers _ _ _ _ h] <;> simp [hCT]
  | gojson j =>
    simp only [respondData, jsonMarshal] at h
    split at h
    · split at h <;> rw [whd_map_headers _ _ _ _ h] <;> simp [hCT]
    · rw [whd_map_headers _ _ _ _ h]; simp [hCT]
  | gobad m =>
    simp only [respondData, jsonMarshal] at h
    split at h
    · split at h <;> rw [whd_map_headers _ _ _ _ h] <;> simp [hCT]
    · rw [whd_map_headers _ _ _ _ h]; simp [hCT]

/-- `RespondData` succeeds (returns through the capture wrapper rather than
panicking) whenever the requested status code is positive. -/
theorem respondData_total (rw : ResponseWriterEx) (code : Int) (ct : String)
    (d : GoData) (h : 0 < code) : (respondData rw code ct d).isSome := by
  have h500 : ¬ (500 : Int) ≤ 0 := by decide
  have hc : ¬ code ≤ 0 := by omega
  cases d <;> simp only [respondData, jsonMarshal] <;>
    (try split) <;> (try split) <;>
    simp [whd_map_eq _ _ _ hc, whd_map_eq _ _ _ h500]

/-- `RespondData` both succeeds and preserves `Content-Encoding` for a
positive status code. -/
theorem respondData_spec (rw : ResponseWriterEx) (code : Int) (ct : String)
    (d : GoData) (h : 0 < code) :
    ∃ rw', respondData rw code ct d = some rw' ∧
      headerGet rw'.headers "Content-Encoding" = headerGet rw.headers "Content-Encoding" := by
  obtain ⟨rw', hrw⟩ := Option.isSome_iff_exists.mp (respondData_total rw code ct d h)
  exact ⟨rw', hrw, respondData_ce _ _ _ _ _ hrw⟩

/-- `RespondError` succeeds for a positive status code and preserves the
`Content-Encoding` header. -/
theorem respondError_spec (rw : ResponseWriterEx) (code : Int) (err : GoErr)
    (h : 0 < code) :
    ∃ rw', respondError rw code err = some rw' ∧
      headerGet rw'.headers "Content-Encoding" = headerGet rw.headers "Content-Encoding" := by
  unfold respondError
  obtain ⟨rw', hrw, hce⟩ := respondData_spec { rw with err := some err } code
    "application/json; charset=utf-8" (.gojson (.obj [("error", errorMapOf err)])) h
  exact ⟨rw', hrw, hce⟩

/-! ## Claim theorems -/

/-- C6: for every status code c ≤ 0 passed to the capture wrapper's
WriteHeader or WriteHeaderAndData, the operation panics (modeled as `none`)
without recording the status; for every c > 0 the panic branch is
unreachable and the status is recorded on the wrapper. -/
theorem c6_capture_wrapper_abort (w : ResponseWriterEx) (c : Int) (d : Option Bytes) :
    (writeHeader w c = none ↔ c ≤ 0) ∧
    (writeHeaderAndData w c d = none ↔ c ≤ 0) ∧
    (∀ w', writeHeader w c = some w' → w'.code = c) ∧
    (∀ w' n, writeHeaderAndData w c d = some (w', n) → w'.code = c) := by
  refine ⟨⟨fun hn => ?_, fun hc => by simp [writeHeader, hc]⟩,
    ⟨fun hn => ?_, fun hc => by unfold writeHeaderAndData; simp [hc]⟩,
    fun w' hw => ?_, fun w' n hw => ?_⟩
  · by_contra hc
    simp [writeHeader, hc] at hn
  · by_contra hc
    unfold writeHeaderAndData at hn
    cases d <;> simp [hc] at hn
  · unfold writeHeader at hw
    split at hw
    · simp at hw
    · injection hw with hw
      rw [← hw]
  · unfold writeHeaderAndData at hw
    split at hw
    · simp at hw
    · cases d <;> simp at hw <;> rw [← hw.1]

/-- C6 witness. -/
theorem c6_capture_wrapper_abort_witness :
    writeHeader { headers := [], code := 0, err := none, body := [] } 0 = none ∧
    writeHeaderAndData { headers := [], code := 0, err := none, body := [] } (-3) (some [1]) = none :=
  ⟨(c6_capture_wrapper_abort { headers := [], code := 0, err := none, body := [] } 0 (some [1])).1.mpr
      (by decide),
   (c6_capture_wrapper_abort { headers := [], code := 0, err := none, body := [] } (-3) (some [1])).2.1.mpr
      (by decide)⟩

/-- C1 (code bug): the Go type switch that fills the compression buffer has
an empty `case string:` body, so a string payload compresses the nil slice
instead of the string's bytes.  Evaluated here with the identity compressor
(whose matching decompressor is also the identity): the client asks for
gzip, the caller requests gzip, the payload is the string "a", and the
written body is the compression of the EMPTY byte slice — decompressing it
yields `[]`, not the payload bytes `strBytes "a"`. -/
theorem c1_string_payload_not_roundtripped :
    (respondCompressed (fun _ b => .ok b) { headers := [], code := 0, err := none, body := [] }
        { headers := [("Accept-Encoding", "gzip")], remoteAddr := "10.0.0.1" }
        200 .gzip "text/plain" (.gostr "a")).map (fun w => w.body) = some [] ∧
    strBytes "a" ≠ [] := by decide

/-- C2 (code bug): `AddMiddleware` adapts the variadic middleware chain
with closures over the `range` loop variable under go 1.18 semantics, so
every adapted slot invokes the LAST middleware of the chain.  Registering
the chain [1, 2] on sub-path "/api" and then adding a route to that group
yields the effective chain [2, 2]: middleware 1 is never applied.  The
lookup-or-create half of the claim does hold: a second `getSubrouter` on
the same path returns the same cached group and leaves the state
unchanged. -/
theorem c2_middleware_loop_capture :
    effectiveChain (addRoute (addMiddleware newRouterState "/api" [1, 2]) "/api" "/x") "/api"
        = [2, 2] ∧
    ¬ 1 ∈ effectiveChain (addRoute (addMiddleware newRouterState "/api" [1, 2]) "/api" "/x") "/api" ∧
    getSubrouter (addRoute (addMiddleware newRouterState "/api" [1, 2]) "/api" "/x") "/api"
        = (addRoute (addMiddleware newRouterState "/api" [1, 2]) "/api" "/x", 0) := by
  decide

/-- C3 counterexample: a handler that leaves captured status 404 DOES
produce an access-log entry (a warning-tier one), contradicting the claim
that a 404 yields no entry. -/
theorem c3_counterexample_404_is_logged :
    (logRequest (fun rw _ => { rw with code := 404 }) []
        { headers := [], remoteAddr := "1.2.3.4" } 7).2
      = [{ level := .warn, remoteAddr := "1.2.3.4", code := 404,
           statusText := "Not Found", duration := 7, errorText := "-" }] := by
  decide

/-- C3 (amended): a request whose handler leaves a final captured status of
404 produces exactly one WARNING-tier log entry, and one that leaves 500
produces exactly one error-tier entry; in both cases the entry carries the
elapsed duration and the remote address. -/
theorem c3_amended_access_log (next : ResponseWriterEx → Request → ResponseWriterEx)
    (w : Headers) (r : Request) (elapsed : Nat) :
    ((logRequest next w r elapsed).1.code = 404 →
      ∃ e, (logRequest next w r elapsed).2 = [e] ∧ e.level = .warn ∧
        e.remoteAddr = r.remoteAddr ∧ e.duration = elapsed) ∧
    ((logRequest next w r elapsed).1.code = 500 →
      ∃ e, (logRequest next w r elapsed).2 = [e] ∧ e.level = .error ∧
        e.remoteAddr = r.remoteAddr ∧ e.duration = elapsed) := by
  constructor <;> intro h <;> simp only [logRequest] at h ⊢ <;> rw [h] <;> norm_num

/-- C3 witness. -/
theorem c3_amended_access_log_witness :
    (logRequest (fun rw _ => { rw with code := 404 }) []
        { headers := [], remoteAddr := "9.9.9.9" } 3).2.length = 1 := by
  obtain ⟨e, he, -, -, -⟩ :=
    (c3_amended_access_log (fun rw _ => { rw with code := 404 }) []
      { headers := [], remoteAddr := "9.9.9.9" } 3).1 (by decide)
  rw [he]
  rfl

/-- The non-nil path of `RespondCompressed` always succeeds for a positive
status code, and its `Content-Encoding` header is determined by the
negotiation outcome and the success of source-data preparation — including
when the external compressor fails, since the header is set before the
compressor runs. -/
theorem respondCompressedData_ce (compress : Bool → Bytes → Except GoErr Bytes)
    (rw : ResponseWriterEx) (r : Request) (code : Int) (compType : CompressionType)
    (contentType : String) (d : GoData)
    (h0 : headerGet rw.headers "Content-Encoding" = "") (h1 : 0 < code) :
    ∃ rw', respondCompressedData compress rw r code compType contentType d = some rw' ∧
      headerGet rw'.headers "Content-Encoding" =
        (match chooseCompression (splitComma (headerGet r.headers "Accept-Encoding")) compType,
               sourceDataOf d with
         | .gzip, .ok _ => "gzip"
         | .deflate, .ok _ => "deflate"
         | _, _ => "") := by
  have hc : ¬ code ≤ 0 := by omega
  simp only [respondCompressedData]
  cases hcc : chooseCompression (splitComma (headerGet r.headers "Accept-Encoding")) compType
  case no =>
    rw [if_pos rfl]
    obtain ⟨rw', hrw, hce⟩ := respondData_spec rw code contentType d h1
    refine ⟨rw', hrw, ?_⟩
    cases hsd : sourceDataOf d <;> rw [hce, h0]
  case gzip =>
    rw [if_neg (by simp)]
    split
    next e heq =>
      obtain ⟨rw', hrw, hce⟩ := respondError_spec rw 500 (nerrWrap e) (by decide)
      refine ⟨rw', hrw, ?_⟩
      rw [hce, h0, heq]
    next src heq =>
      rw [if_pos rfl]
      split
      next e2 hcp =>
        obtain ⟨rw', hrw, hce⟩ := respondError_spec
          { rw with headers := headerSet rw.headers "Content-Encoding" "gzip" } 500 e2
          (by decide)
        refine ⟨rw', hrw, ?_⟩
        rw [hce, heq]
        exact headerGet_headerSet_self _ _ _
      next cd hcp =>
        rw [whd_map_eq _ _ _ hc]
        refine ⟨_, rfl, ?_⟩
        rw [heq]
        show headerGet (headerSet (headerSet rw.headers "Content-Encoding" "gzip")
          "Content-Type" contentType) "Content-Encoding" = "gzip"
        rw [headerGet_headerSet_ne _ _ _ _ (by decide)]
        exact headerGet_headerSet_self _ _ _
  case deflate =>
    rw [if_neg (by simp)]
    split
    next e heq =>
      obtain ⟨rw', hrw, hce⟩ := respondError_spec rw 500 (nerrWrap e) (by decide)
      refine ⟨rw', hrw, ?_⟩
      rw [hce, h0, heq]
    next src heq =>
      rw [if_neg (by simp)]
      split
      next e2 hcp =>
        obtain ⟨rw', hrw, hce⟩ := respondError_spec
          { rw with headers := headerSet rw.headers "Content-Encoding" "deflate" } 500 e2
          (by decide)
        refine ⟨rw', hrw, ?_⟩
        rw [hce, heq]
        exact headerGet_headerSet_self _ _ _
      next cd hcp =>
        rw [whd_map_eq _ _ _ hc]
        refine ⟨_, rfl, ?_⟩
        rw [heq]
        show headerGet (headerSet (headerSet rw.headers "Content-Encoding" "deflate")
          "Content-Type" contentType) "Content-Encoding" = "deflate"
        rw [headerGet_headerSet_ne _ _ _ _ (by decide)]
        exact headerGet_headerSet_self _ _ _

/-- The JSON branch of `RespondData` on a marshalable value, in closed
form. -/
theorem respondData_json_ok (rw : ResponseWriterEx) (code : Int) (j : Json)
    (hc : ¬ code ≤ 0) :
    respondData rw code "application/json; charset=utf-8" (.gojson j) =
      some { rw with
        headers := headerSet rw.headers "Content-Type" "application/json; charset=utf-8"
        code := code
        body := rw.body ++ strBytes (encodeJson j) } := by
  have hct : strContains "application/json; charset=utf-8" "application/json" = true := by
    decide
  have hlen : 0 < ("application/json; charset=utf-8" : String).length := by decide
  simp only [respondData, jsonMarshal]
  rw [if_pos hct, if_pos hlen, whd_map_eq _ _ _ hc]
  rfl

/-- C4 counterexample: when the external compressor fails, the written 500
error response still carries the `Content-Encoding: gzip` header, because
`RespondCompressed` sets the header before invoking the compressor and the
error path does not remove it. -/
theorem c4_counterexample_encoding_kept_on_failure :
    (respondCompressed (fun _ _ => .error (.plain "zip failure"))
        { headers := [], code := 0, err := none, body := [] }
        { headers := [("Accept-Encoding", "gzip")], remoteAddr := "10.0.0.1" }
        200 .gzip "text/plain" (.gobytes [1, 2, 3])).map
        (fun w => (headerGet w.headers "Content-Encoding", w.code))
      = some ("gzip", 500) := by decide

/-- C4 (amended): starting from a response without a `Content-Encoding`
header and a positive status code, `RespondCompressed` writes a response
whose `Content-Encoding` header is the negotiated scheme name exactly when
the payload is non-nil, the negotiation chose that scheme, and source-data
preparation (JSON marshaling) succeeded — and is absent otherwise.  In
particular a marshal failure's 500 response carries no `Content-Encoding`,
but (unlike the original claim) a compression failure's 500 response still
carries it. -/
theorem c4_amended_content_encoding (compress : Bool → Bytes → Except GoErr Bytes)
    (rw : ResponseWriterEx) (r : Request) (code : Int) (compType : CompressionType)
    (contentType : String) (data : GoData)
    (h0 : headerGet rw.headers "Content-Encoding" = "") (h1 : 0 < code) :
    ∃ rw', respondCompressed compress rw r code compType contentType data = some rw' ∧
      headerGet rw'.headers "Content-Encoding" =
        (if data.isNil then ""
         else
           match chooseCompression (splitComma (headerGet r.headers "Accept-Encoding")) compType,
                 sourceDataOf data with
           | .gzip, .ok _ => "gzip"
           | .deflate, .ok _ => "deflate"
           | _, _ => "") := by
  cases data
  case gonil =>
    obtain ⟨rw', hrw, hce⟩ := respondData_spec rw code contentType .gonil h1
    exact ⟨rw', hrw, by rw [hce, h0]; rfl⟩
  case gostr s =>
    exact respondCompressedData_ce compress rw r code compType contentType (.gostr s) h0 h1
  case gobytes b =>
    exact respondCompressedData_ce compress rw r code compType contentType (.gobytes b) h0 h1
  case gojson j =>
    exact respondCompressedData_ce compress rw r code compType contentType (.gojson j) h0 h1
  case gobad m =>
    exact respondCompressedData_ce compress rw r code compType contentType (.gobad m) h0 h1

/-- C4 witness. -/
theorem c4_amended_content_encoding_witness :
    (respondCompressed (fun _ b => .ok b)
        { headers := [], code := 0, err := none, body := [] }
        { headers := [("Accept-Encoding", "gzip")], remoteAddr := "10.0.0.1" }
        200 .gzip "text/plain" (.gobytes [1, 2, 3])).map
        (fun w => headerGet w.headers "Content-Encoding") = some "gzip" := by
  obtain ⟨rw', hrw, hce⟩ := c4_amended_content_encoding (fun _ b => .ok b)
    { headers := [], code := 0, err := none, body := [] }
    { headers := [("Accept-Encoding", "gzip")], remoteAddr := "10.0.0.1" }
    200 .gzip "text/plain" (.gobytes [1, 2, 3]) (by decide) (by decide)
  rw [hrw, Option.map_some', hce]
  rfl

/-- C7: when the request's `Accept-Encoding` does not contain the token
matching the caller-requested compression kind (the negotiation yields
`CompressionNo`), `RespondCompressed` produces exactly the `RespondData`
response for the same arguments, and a response that started without a
`Content-Encoding` header ends without one. -/
theorem c7_no_token_falls_back_to_plain (compress : Bool → Bytes → Except GoErr Bytes)
    (rw : ResponseWriterEx) (r : Request) (code : Int) (compType : CompressionType)
    (contentType : String) (data : GoData)
    (htok : chooseCompression (splitComma (headerGet r.headers "Accept-Encoding")) compType
      = CompressionType.no) :
    respondCompressed compress rw r code compType contentType data
      = respondData rw code contentType data ∧
    (headerGet rw.headers "Content-Encoding" = "" →
      ∀ rw', respondCompressed compress rw r code compType contentType data = some rw' →
        headerGet rw'.headers "Content-Encoding" = "") := by
  have h1 : respondCompressed compress rw r code compType contentType data
      = respondData rw code contentType data := by
    cases data
    case gonil => rfl
    all_goals (simp only [respondCompressed, respondCompressedData, htok]; simp)
  refine ⟨h1, fun h0 rw' hrw => ?_⟩
  rw [h1] at hrw
  rw [respondData_ce _ _ _ _ _ hrw, h0]

/-- C7 witness. -/
theorem c7_no_token_falls_back_to_plain_witness :
    respondCompressed (fun _ b => .ok b)
        { headers := [], code := 0, err := none, body := [] }
        { headers := [("Accept-Encoding", "deflate")], remoteAddr := "1.1.1.1" }
        200 .gzip "text/plain" (.gostr "hi")
      = respondData { headers := [], code := 0, err := none, body := [] }
        200 "text/plain" (.gostr "hi") :=
  (c7_no_token_falls_back_to_plain (fun _ b => .ok b)
    { headers := [], code := 0, err := none, body := [] }
    { headers := [("Accept-Encoding", "deflate")], remoteAddr := "1.1.1.1" }
    200 .gzip "text/plain" (.gostr "hi") (by decide)).1

/-- C5 counterexample: `RespondError` on a plain (non-nerr) error "boom"
writes the body `{"error":{"detail":"boom"}}`, not `{"error":"boom"}` as
the claim states for errors without structured fields. -/
theorem c5_counterexample_plain_error_nested :
    (respondError { headers := [], code := 0, err := none, body := [] } 400
        (.plain "boom")).map (fun w => w.body)
      = some (strBytes "\x7b\"error\":\x7b\"detail\":\"boom\"\x7d\x7d") ∧
    (respondError { headers := [], code := 0, err := none, body := [] } 400
        (.plain "boom")).map (fun w => w.body)
      ≠ some (strBytes "\x7b\"error\":\"boom\"\x7d") := by decide

/-- C5 (amended): for a positive status code, `RespondError` records the
error on the capture wrapper, writes the given status with the JSON
content type, and the body is the JSON object `{"error": M}` where `M` has
the optional `code`, mandatory `detail` and optional `trace` fields for a
structured nerr error, and is the object `{"detail": "<message>"}` (not
the bare message string) for a plain error. -/
theorem c5_amended_error_envelope (rw : ResponseWriterEx) (code : Int) (err : GoErr)
    (h : 0 < code) :
    ∃ rw', respondError rw code err = some rw' ∧ rw'.code = code ∧
      rw'.err = some err ∧
      headerGet rw'.headers "Content-Type" = "application/json; charset=utf-8" ∧
      rw'.body = rw.body ++ strBytes (encodeJson (.obj [("error",
        match err with
        | .nerrE tc tr op =>
          .obj ((if tc ≠ 0 then [("code", Json.num tc)] else [])
            ++ [("detail", Json.str op)]
            ++ (if tr.length > 0 then [("trace", Json.sarr tr)] else []))
        | .plain m => .obj [("detail", Json.str m)])])) := by
  have hc : ¬ code ≤ 0 := by omega
  have hmap : errorMapOf err = (match err with
      | .nerrE tc tr op =>
        .obj ((if tc ≠ 0 then [("code", Json.num tc)] else [])
          ++ [("detail", Json.str op)]
          ++ (if tr.length > 0 then [("trace", Json.sarr tr)] else []))
      | .plain m => .obj [("detail", Json.str m)]) := by
    cases err <;> rfl
  have hre : respondError rw code err
      = respondData { rw with err := some err } code "application/json; charset=utf-8"
        (.gojson (.obj [("error", errorMapOf err)])) := rfl
  rw [hre, respondData_json_ok _ _ _ hc]
  refine ⟨_, rfl, rfl, rfl, headerGet_headerSet_self _ _ _, ?_⟩
  rw [hmap]

/-- C5 witness. -/
theorem c5_amended_error_envelope_witness :
    (respondError { headers := [], code := 0, err := none, body := [] } 400
        (.plain "boom")).map (fun w => (w.code, w.err)) = some (400, some (.plain "boom")) := by
  obtain ⟨rw', hrw, hcode, herr, -, -⟩ :=
    c5_amended_error_envelope { headers := [], code := 0, err := none, body := [] } 400
      (.plain "boom") (by decide)
  rw [hrw, Option.map_some', hcode, herr]

/-- C8: for a successfully retrieved session, `CheckSession` returns the
"unauthorized" error exactly when the session has no entry under the cookie
key or its configured max-age is negative; otherwise, when the stored value
is the user-identifier string, it returns that identifier with a nil
error. -/
theorem c8_check_session_unauthorized_iff (s : Session) (key : String) :
    (checkSession (.ok s) key = some (.error (nerrNewMsg "unauthorized")) ↔
      (lookupVal s.values key = none ∨ s.options.maxAge < 0)) ∧
    (∀ u, lookupVal s.values key = some (.vstr u) → ¬ s.options.maxAge < 0 →
      checkSession (.ok s) key = some (.ok u)) := by
  constructor
  · cases hl : lookupVal s.values key with
    | none => simp [checkSession, hl]
    | some v =>
      by_cases hm : s.options.maxAge < 0
      · simp [checkSession, hl, hm]
      · cases v <;> simp [checkSession, hl, hm]
  · intro u hu hm
    simp [checkSession, hu, hm]

/-- C8 witness. -/
theorem c8_check_session_unauthorized_iff_witness :
    checkSession (.ok { values := [("uid", .vstr "u1")], options := { maxAge := 100 } }) "uid"
      = some (.ok "u1") ∧
    checkSession (.ok { values := [], options := { maxAge := 100 } }) "uid"
      = some (.error (nerrNewMsg "unauthorized")) :=
  ⟨(c8_check_session_unauthorized_iff
      { values := [("uid", .vstr "u1")], options := { maxAge := 100 } } "uid").2 "u1"
      (by decide) (by decide),
   (c8_check_session_unauthorized_iff
      { values := [], options := { maxAge := 100 } } "uid").1.mpr (Or.inl (by decide))⟩

/-- C9: whenever the store retrieves a session, `CloseSession` passes to
`Save` exactly that session with the tracked cookie key deleted (so the
persisted mutation no longer contains the key), and in every case the only
externally visible failure signal is at most one log line — the function
returns nothing, so neither retrieval nor persistence failures reach the
caller. -/
theorem c9_close_session_best_effort (g : Option Session × Option GoErr)
    (saveErr : Option GoErr) (key : String) :
    (∀ s, g.1 = some s →
      (closeSession g saveErr key).saved = some (sessionErase s key) ∧
      lookupVal (sessionErase s key).values key = none) ∧
    ((closeSession g saveErr key).logs = [] ∨
      (closeSession g saveErr key).logs = ["session save error"]) := by
  obtain ⟨g1, g2⟩ := g
  constructor
  · intro s hs
    cases g1 with
    | none => simp at hs
    | some t =>
      simp only [Option.some.injEq] at hs
      subst hs
      exact ⟨by simp [closeSession], by simp [sessionErase, lookupVal_erase]⟩
  · cases g1 <;> cases saveErr <;> simp [closeSession]

/-- C9 witness. -/
theorem c9_close_session_best_effort_witness :
    (closeSession (some { values := [("uid", .vstr "u1")], options := { maxAge := 5 } }, none)
        (some (.plain "disk full")) "uid").saved
      = some (sessionErase { values := [("uid", .vstr "u1")], options := { maxAge := 5 } } "uid") :=
  ((c9_close_session_best_effort
      (some { values := [("uid", .vstr "u1")], options := { maxAge := 5 } }, none)
      (some (.plain "disk full")) "uid").1
    { values := [("uid", .vstr "u1")], options := { maxAge := 5 } } rfl).1

/-- C10: when a retrievable session holds a value of the wrong type under
the cookie key while its max-age is non-negative, `CheckSession` panics on
the unchecked type assertion (modeled as `none`) instead of returning an
error — a uint64 value in the newer string-typed variant, and a string
value in the older uint64-typed variant under its fixed `user_id` key. -/
theorem c10_wrong_typed_session_value_panics (s t : Session) (key : String)
    (n : Nat) (u : String)
    (h1 : lookupVal s.values key = some (.vuint n)) (h2 : ¬ s.options.maxAge < 0)
    (h3 : lookupVal t.values "user_id" = some (.vstr u)) (h4 : ¬ t.options.maxAge < 0) :
    checkSession (.ok s) key = none ∧ checkSessionOld (.ok t) = none := by
  constructor
  · simp [checkSession, h1, h2]
  · simp [checkSessionOld, h3, h4]

/-- C10 witness. -/
theorem c10_wrong_typed_session_value_panics_witness :
    checkSession (.ok { values := [("uid", .vuint 7)], options := { maxAge := 10 } }) "uid"
      = none ∧
    checkSessionOld (.ok { values := [("user_id", .vstr "u1")], options := { maxAge := 10 } })
      = none :=
  c10_wrong_typed_session_value_panics
    { values := [("uid", .vuint 7)], options := { maxAge := 10 } }
    { values := [("user_id", .vstr "u1")], options := { maxAge := 10 } }
    "uid" 7 "u1" (by decide) (by decide) (by decide) (by decide)
